import Mathlib

namespace TaskManager

/-- A persisted user row: id, username, email, derived password hash, creation time. -/
structure User where
  id : Nat
  username : String
  email : String
  password_hash : String
  created_at : Nat
deriving DecidableEq, Repr

/-- A persisted task row, owned by exactly one user via user_id. -/
structure Task where
  id : Nat
  title : String
  description : String
  completed : Bool
  created_at : Nat
  updated_at : Nat
  user_id : Nat
deriving DecidableEq, Repr

/-- The database state: both tables plus the autoincrement counters. -/
structure AppState where
  users : List User
  tasks : List Task
  nextUserId : Nat
  nextTaskId : Nat
deriving DecidableEq, Repr

/-- An HTTP-level error outcome: status code plus error message. -/
structure Err where
  status : Nat
  msg : String
deriving DecidableEq, Repr

/-- A JWT access token; the only payload the app reads back is the identity. -/
structure AccessToken where
  identity : Nat
deriving DecidableEq, Repr

def create_access_token (id : Nat) : AccessToken := ⟨id⟩

def get_jwt_identity (tok : AccessToken) : Nat := tok.identity

/-- Truthiness of an optional string field from a JSON body, as Python
`not data.get(k)`: true when the field is absent or the empty string. -/
def blank (o : Option String) : Bool := o.getD "" == ""

/-- Task.query.filter_by(id=task_id, user_id=user_id).first() -/
def findTask (st : AppState) (task_id user_id : Nat) : Option Task :=
  st.tasks.find? (fun t => t.id == task_id && t.user_id == user_id)

/-- JSON body of POST /api/auth/register; `none` fields are absent keys. -/
structure RegisterBody where
  username : Option String
  email : Option String
  password : Option String
deriving DecidableEq, Repr

/-- JSON body of POST /api/auth/login. -/
structure LoginBody where
  username : Option String
  password : Option String
deriving DecidableEq, Repr

/-- JSON body of POST /api/tasks. -/
structure TaskCreateBody where
  title : Option String
  description : Option String
deriving DecidableEq, Repr

/-- JSON body of PUT /api/tasks/:id; a `none` field is an absent key. -/
structure TaskUpdateBody where
  title : Option String
  description : Option String
  completed : Option Bool
deriving DecidableEq, Repr

/-- The public user summary returned by register and login: exactly
id, username, email and creation timestamp, nothing else. -/
structure UserSummary where
  id : Nat
  username : String
  email : String
  created_at : Nat
deriving DecidableEq, Repr

/-- Successful auth response body: message, access token, user summary. -/
structure AuthResponse where
  message : String
  access_token : AccessToken
  user : UserSummary
deriving DecidableEq, Repr

/-- UserRegistration.post.  `genHash` stands for
werkzeug.generate_password_hash, an external function the app calls.
`now` is datetime.utcnow at the time of the request, and `body` is
request.get_json() (none = body parsed to null).  Returns the outcome
together with the database state after the request. -/
def register (genHash : String → String) (st : AppState) (now : Nat)
    (body : Option RegisterBody) : Except Err AuthResponse × AppState :=
  match body with
  | none => (.error ⟨400, "Username, email, and password are required"⟩, st)
  | some d =>
    if blank d.username || blank d.email || blank d.password then
      (.error ⟨400, "Username, email, and password are required"⟩, st)
    else if (st.users.find? (fun u => u.username == d.username.getD "")).isSome then
      (.error ⟨400, "Username already exists"⟩, st)
    else if (st.users.find? (fun u => u.email == d.email.getD "")).isSome then
      (.error ⟨400, "Email already exists"⟩, st)
    else
      let u : User :=
        ⟨st.nextUserId, d.username.getD "", d.email.getD "",
         genHash (d.password.getD ""), now⟩
      (.ok ⟨"User created successfully", create_access_token u.id,
            ⟨u.id, u.username, u.email, u.created_at⟩⟩,
       { st with users := st.users ++ [u], nextUserId := st.nextUserId + 1 })

/-- UserLogin.post.  `checkHash` stands for
werkzeug.check_password_hash(stored_hash, candidate).  Login never
mutates the database, so only the outcome is returned. -/
def login (checkHash : String → String → Bool) (st : AppState)
    (body : Option LoginBody) : Except Err AuthResponse :=
  match body with
  | none => .error ⟨400, "Username and password are required"⟩
  | some d =>
    if blank d.username || blank d.password then
      .error ⟨400, "Username and password are required"⟩
    else
      match st.users.find? (fun u => u.username == d.username.getD "") with
      | some user =>
        if checkHash user.password_hash (d.password.getD "") then
          .ok ⟨"Login successful", create_access_token user.id,
               ⟨user.id, user.username, user.email, user.created_at⟩⟩
        else .error ⟨401, "Invalid credentials"⟩
      | none => .error ⟨401, "Invalid credentials"⟩

/-- ORDER BY created_at DESC as a relation on task rows. -/
def createdDesc (a b : Task) : Prop := b.created_at ≤ a.created_at

instance : DecidableRel createdDesc :=
  fun a b => Nat.decLe b.created_at a.created_at

instance : IsTotal Task createdDesc := ⟨fun a b => Nat.le_total b.created_at a.created_at⟩

instance : IsTrans Task createdDesc := ⟨fun _ _ _ h1 h2 => Nat.le_trans h2 h1⟩

/-- TaskList.get: tasks of the caller, ORDER BY created_at DESC, with count. -/
def listTasks (st : AppState) (caller : Nat) : List Task × Nat :=
  let ts := List.insertionSort createdDesc
    (st.tasks.filter (fun t => t.user_id == caller))
  (ts, ts.length)

/-- TaskList.post.  `now` is datetime.utcnow (both column defaults fire at
the same insert).  Returns the outcome and the state after the request. -/
def createTask (st : AppState) (caller now : Nat)
    (body : Option TaskCreateBody) : Except Err Task × AppState :=
  match body with
  | none => (.error ⟨400, "Title is required"⟩, st)
  | some d =>
    if blank d.title then (.error ⟨400, "Title is required"⟩, st)
    else
      let t : Task :=
        ⟨st.nextTaskId, d.title.getD "", d.description.getD "",
         false, now, now, caller⟩
      (.ok t, { st with tasks := st.tasks ++ [t], nextTaskId := st.nextTaskId + 1 })

/-- TaskResource.get: single-row lookup filtered by id AND owner. -/
def getTask (st : AppState) (caller task_id : Nat) : Except Err Task :=
  match findTask st task_id caller with
  | none => .error ⟨404, "Task not found"⟩
  | some t => .ok t

/-- TaskResource.put.  The ownership lookup runs first; only then is the
body read.  A body that parsed to null makes the Python code raise
TypeError at the first membership test, caught by the blanket handler as
a 500 before any field write or commit.  Present fields overwrite, absent
fields are kept, and updated_at is always set to `now` on success. -/
def updateTask (st : AppState) (caller task_id now : Nat)
    (body : Option TaskUpdateBody) : Except Err Task × AppState :=
  match findTask st task_id caller with
  | none => (.error ⟨404, "Task not found"⟩, st)
  | some t =>
    match body with
    | none => (.error ⟨500, "argument of type NoneType is not iterable"⟩, st)
    | some d =>
      let t2 : Task :=
        { t with
          title := d.title.getD t.title,
          description := d.description.getD t.description,
          completed := d.completed.getD t.completed,
          updated_at := now }
      let tasks2 := st.tasks.map
        (fun x => if x.id == task_id && x.user_id == caller then t2 else x)
      (.ok t2, { st with tasks := tasks2 })

/-- TaskResource.delete: the found row is removed from the table. -/
def deleteTask (st : AppState) (caller task_id : Nat) :
    Except Err Unit × AppState :=
  match findTask st task_id caller with
  | none => (.error ⟨404, "Task not found"⟩, st)
  | some _ =>
    let tasks2 := st.tasks.filter
      (fun x => !(x.id == task_id && x.user_id == caller))
    (.ok (), { st with tasks := tasks2 })

/-- The row lookup by id and owner misses exactly when no row of the task
table carries that id with that owner. -/
lemma findTask_eq_none_iff (st : AppState) (task_id caller : Nat) :
    findTask st task_id caller = none
      ↔ ∀ t ∈ st.tasks, ¬(t.id = task_id ∧ t.user_id = caller) := by
  simp [findTask, List.find?_eq_none, Bool.and_eq_true, beq_iff_eq, not_and]

/-- A row returned by the lookup carries the requested id and owner and
belongs to the table. -/
lemma findTask_eq_some (st : AppState) (task_id caller : Nat) (t : Task)
    (h : findTask st task_id caller = some t) :
    t ∈ st.tasks ∧ t.id = task_id ∧ t.user_id = caller := by
  unfold findTask at h
  have hmem := List.mem_of_find?_eq_some h
  have hp := List.find?_some h
  simp only [Bool.and_eq_true, beq_iff_eq] at hp
  exact ⟨hmem, hp⟩

/-- C10: on a task the caller owns, a PUT whose parsed JSON body is
null/absent does not succeed with a timestamp-only refresh: it returns the
generic 500 internal-error outcome and leaves the database state, the task
and its updated timestamp included, entirely unchanged (no commit). -/
theorem updateTask_null_body_internal_error (st : AppState)
    (caller task_id now : Nat) (t : Task)
    (h : findTask st task_id caller = some t) :
    updateTask st caller task_id now none
      = (.error ⟨500, "argument of type NoneType is not iterable"⟩, st) := by
  unfold updateTask
  rw [h]

/-- Witness for C10 at a concrete state with one task owned by user 7. -/
theorem updateTask_null_body_internal_error_witness :
    findTask ⟨[], [⟨1, "t", "", false, 0, 0, 7⟩], 1, 2⟩ 1 7
        = some ⟨1, "t", "", false, 0, 0, 7⟩
    ∧ updateTask ⟨[], [⟨1, "t", "", false, 0, 0, 7⟩], 1, 2⟩ 7 1 5 none
        = (.error ⟨500, "argument of type NoneType is not iterable"⟩,
           ⟨[], [⟨1, "t", "", false, 0, 0, 7⟩], 1, 2⟩) :=
  ⟨by decide,
   updateTask_null_body_internal_error _ 7 1 5 ⟨1, "t", "", false, 0, 0, 7⟩
     (by decide)⟩

/-- C8: a successful delete removes the record permanently: no row with
that id and owner remains in the table, and a subsequent get on the same
id by the same caller fails with the NotFound outcome. -/
theorem deleteTask_then_getTask (st : AppState) (caller task_id : Nat)
    (st2 : AppState)
    (h : deleteTask st caller task_id = (.ok (), st2)) :
    getTask st2 caller task_id = .error ⟨404, "Task not found"⟩
    ∧ ∀ x ∈ st2.tasks, ¬(x.id = task_id ∧ x.user_id = caller) := by
  unfold deleteTask at h
  cases hf : findTask st task_id caller with
  | none => rw [hf] at h; exact absurd (congrArg Prod.fst h) (by simp)
  | some t0 =>
    rw [hf] at h
    have hst2 : st2.tasks = st.tasks.filter (fun x => !(x.id == task_id && x.user_id == caller)) :=
      congrArg AppState.tasks (congrArg Prod.snd h).symm
    have hclean : ∀ x ∈ st2.tasks, ¬(x.id = task_id ∧ x.user_id = caller) := by
      intro x hx
      rw [hst2] at hx
      simp only [List.mem_filter, Bool.not_eq_true', Bool.and_eq_false_iff,
        beq_eq_false_iff_ne] at hx
      rcases hx.2 with h1 | h1 <;> intro hc <;> exact h1 (by simp [hc.1, hc.2])
    refine ⟨?_, hclean⟩
    unfold getTask
    have : findTask st2 task_id caller = none := by
      rw [findTask_eq_none_iff]; exact hclean
    rw [this]

/-- Witness for C8: deleting the single task of user 7 empties the table
and the follow-up get returns 404. -/
theorem deleteTask_then_getTask_witness :
    deleteTask ⟨[], [⟨1, "t", "", false, 0, 0, 7⟩], 1, 2⟩ 7 1
        = (.ok (), ⟨[], [], 1, 2⟩)
    ∧ getTask ⟨[], [], 1, 2⟩ 7 1 = .error ⟨404, "Task not found"⟩ :=
  ⟨rfl,
   (deleteTask_then_getTask ⟨[], [⟨1, "t", "", false, 0, 0, 7⟩], 1, 2⟩ 7 1
     ⟨[], [], 1, 2⟩ rfl).1⟩

/-- C5: create fails with the 400 validation outcome and persists nothing
when the title is missing or empty; otherwise the persisted task has
completed = false, description defaulting to the empty string, owner equal
to the caller, and both timestamps equal to the creation time. -/
theorem createTask_validation_and_defaults (st : AppState) (caller now : Nat)
    (body : Option TaskCreateBody) :
    (body = none →
      createTask st caller now body = (.error ⟨400, "Title is required"⟩, st))
  ∧ (∀ d, body = some d → d.title.getD "" = "" →
      createTask st caller now body = (.error ⟨400, "Title is required"⟩, st))
  ∧ (∀ d, body = some d → d.title.getD "" ≠ "" →
      ∃ t, createTask st caller now body
          = (.ok t, { st with tasks := st.tasks ++ [t], nextTaskId := st.nextTaskId + 1 })
        ∧ t.completed = false
        ∧ t.title = d.title.getD ""
        ∧ t.description = d.description.getD ""
        ∧ t.user_id = caller
        ∧ t.created_at = now
        ∧ t.updated_at = now) := by
  refine ⟨fun hb => by rw [hb]; rfl, fun d hb ht => ?_, fun d hb ht => ?_⟩
  · rw [hb]
    unfold createTask
    simp [blank, ht]
  · rw [hb]
    unfold createTask
    simp only [blank, beq_iff_eq, if_neg ht]
    exact ⟨_, rfl, rfl, rfl, rfl, rfl, rfl, rfl⟩

/-- Witness for C5: a concrete create with description absent persists a
task with empty description, completed = false and both timestamps 3. -/
theorem createTask_validation_and_defaults_witness :
    ∃ t, createTask ⟨[], [], 1, 1⟩ 7 3 (some ⟨some "Buy milk", none⟩)
        = (.ok t, { users := [], tasks := [] ++ [t], nextUserId := 1, nextTaskId := 2 })
      ∧ t.completed = false
      ∧ t.title = (some "Buy milk").getD ""
      ∧ t.description = (none : Option String).getD ""
      ∧ t.user_id = 7
      ∧ t.created_at = 3
      ∧ t.updated_at = 3 :=
  (createTask_validation_and_defaults ⟨[], [], 1, 1⟩ 7 3
    (some ⟨some "Buy milk", none⟩)).2.2 ⟨some "Buy milk", none⟩ rfl (by decide)

/-- C1: for an authenticated caller, get, update and delete fail with the
NotFound outcome exactly when no row of the task table carries the
requested id with the caller as owner; a task owned by another user and a
task id that does not exist at all yield the same NotFound value (never a
401, never task data), and the failing update and delete leave the state
unchanged. -/
theorem task_ops_notfound_iff_not_owned (st : AppState)
    (caller task_id now : Nat) (body : Option TaskUpdateBody) :
    (getTask st caller task_id = .error ⟨404, "Task not found"⟩
      ↔ ∀ t ∈ st.tasks, ¬(t.id = task_id ∧ t.user_id = caller))
  ∧ ((updateTask st caller task_id now body).1 = .error ⟨404, "Task not found"⟩
      ↔ ∀ t ∈ st.tasks, ¬(t.id = task_id ∧ t.user_id = caller))
  ∧ ((deleteTask st caller task_id).1 = .error ⟨404, "Task not found"⟩
      ↔ ∀ t ∈ st.tasks, ¬(t.id = task_id ∧ t.user_id = caller))
  ∧ ((∀ t ∈ st.tasks, ¬(t.id = task_id ∧ t.user_id = caller)) →
      updateTask st caller task_id now body = (.error ⟨404, "Task not found"⟩, st)
      ∧ deleteTask st caller task_id = (.error ⟨404, "Task not found"⟩, st)) := by
  rw [← findTask_eq_none_iff]
  cases hf : findTask st task_id caller with
  | none =>
    simp only [getTask, updateTask, deleteTask, hf]
    cases body <;> simp
  | some t0 =>
    simp only [getTask, updateTask, deleteTask, hf]
    cases body <;> simp

/-- Witness for C1: user 1 calling on task 9 (owned by user 2) and on the
absent task id 3 gets the same NotFound outcome from get, update, delete. -/
theorem task_ops_notfound_iff_not_owned_witness :
    (getTask ⟨[], [⟨9, "t", "", false, 0, 0, 2⟩], 1, 10⟩ 1 9
        = .error ⟨404, "Task not found"⟩
      ∧ updateTask ⟨[], [⟨9, "t", "", false, 0, 0, 2⟩], 1, 10⟩ 1 9 5 none
        = (.error ⟨404, "Task not found"⟩, ⟨[], [⟨9, "t", "", false, 0, 0, 2⟩], 1, 10⟩)
      ∧ deleteTask ⟨[], [⟨9, "t", "", false, 0, 0, 2⟩], 1, 10⟩ 1 9
        = (.error ⟨404, "Task not found"⟩, ⟨[], [⟨9, "t", "", false, 0, 0, 2⟩], 1, 10⟩))
    ∧ getTask ⟨[], [⟨9, "t", "", false, 0, 0, 2⟩], 1, 10⟩ 1 3
        = .error ⟨404, "Task not found"⟩ := by
  have h9 := task_ops_notfound_iff_not_owned
    ⟨[], [⟨9, "t", "", false, 0, 0, 2⟩], 1, 10⟩ 1 9 5 none
  have h3 := task_ops_notfound_iff_not_owned
    ⟨[], [⟨9, "t", "", false, 0, 0, 2⟩], 1, 10⟩ 1 3 5 none
  have hno9 : ∀ t ∈ ([⟨9, "t", "", false, 0, 0, 2⟩] : List Task),
      ¬(t.id = 9 ∧ t.user_id = 1) := by decide
  have hno3 : ∀ t ∈ ([⟨9, "t", "", false, 0, 0, 2⟩] : List Task),
      ¬(t.id = 3 ∧ t.user_id = 1) := by decide
  exact ⟨⟨h9.1.mpr hno9, (h9.2.2.2 hno9).1, (h9.2.2.2 hno9).2⟩, h3.1.mpr hno3⟩

/-- C4: a successful update on an owned task modifies exactly the fields
present in the request; every absent field keeps its previous value, the id,
creation timestamp and owner are never modified, and the updated timestamp
becomes the current time even when no supplied field changed value. -/
theorem updateTask_absent_fields_kept (st : AppState) (caller task_id now : Nat)
    (d : TaskUpdateBody) (t : Task)
    (h : findTask st task_id caller = some t) :
    ∃ t2, (updateTask st caller task_id now (some d)).1 = .ok t2
      ∧ t2.id = t.id
      ∧ t2.created_at = t.created_at
      ∧ t2.user_id = t.user_id
      ∧ t2.updated_at = now
      ∧ (d.title = none → t2.title = t.title)
      ∧ (∀ s, d.title = some s → t2.title = s)
      ∧ (d.description = none → t2.description = t.description)
      ∧ (∀ s, d.description = some s → t2.description = s)
      ∧ (d.completed = none → t2.completed = t.completed)
      ∧ (∀ b, d.completed = some b → t2.completed = b) := by
  simp only [updateTask, h]
  refine ⟨_, rfl, rfl, rfl, rfl, rfl, ?_, ?_, ?_, ?_, ?_, ?_⟩ <;>
    intros <;> simp [*]

/-- Witness for C4: sending only completed = true flips the flag, keeps
title and description, and refreshes updated_at from 0 to 5. -/
theorem updateTask_absent_fields_kept_witness :
    ∃ t2, (updateTask ⟨[], [⟨1, "Buy milk", "d", false, 0, 0, 7⟩], 1, 2⟩
            7 1 5 (some ⟨none, none, some true⟩)).1 = .ok t2
      ∧ t2.id = 1 ∧ t2.created_at = 0 ∧ t2.user_id = 7 ∧ t2.updated_at = 5
      ∧ t2.title = "Buy milk" ∧ t2.description = "d" ∧ t2.completed = true := by
  obtain ⟨t2, he, hid, hca, hu, hup, hti, _, hde, _, _, hco⟩ :=
    updateTask_absent_fields_kept ⟨[], [⟨1, "Buy milk", "d", false, 0, 0, 7⟩], 1, 2⟩
      7 1 5 ⟨none, none, some true⟩ ⟨1, "Buy milk", "d", false, 0, 0, 7⟩ (by decide)
  exact ⟨t2, he, hid, hca, hu, hup, hti rfl, hde rfl, hco true rfl⟩

/-- C7: when the new task id is fresh for the table (as the autoincrement
primary key guarantees), a successful create followed immediately by get on
the returned id by the same caller returns the very task that was created:
title and description equal what was sent and completed is false. -/
theorem createTask_then_getTask (st : AppState) (caller now : Nat)
    (d : TaskCreateBody) (t : Task) (st2 : AppState)
    (hfresh : ∀ x ∈ st.tasks, x.id ≠ st.nextTaskId)
    (h : createTask st caller now (some d) = (.ok t, st2)) :
    getTask st2 caller t.id = .ok t
    ∧ (∀ s, d.title = some s → t.title = s)
    ∧ (∀ s, d.description = some s → t.description = s)
    ∧ (d.description = none → t.description = "")
    ∧ t.completed = false := by
  by_cases hb : blank d.title = true
  · simp only [createTask, if_pos hb] at h
    exact absurd (congrArg Prod.fst h) (by simp)
  · simp only [createTask, if_neg hb] at h
    obtain ⟨ht, hst2⟩ : Except.ok (⟨st.nextTaskId, d.title.getD "", d.description.getD "", false, now, now, caller⟩ : Task) = Except.ok t ∧ { st with tasks := st.tasks ++ [⟨st.nextTaskId, d.title.getD "", d.description.getD "", false, now, now, caller⟩], nextTaskId := st.nextTaskId + 1 } = st2 :=
      Prod.mk.injEq .. ▸ h
    replace ht : t = ⟨st.nextTaskId, d.title.getD "", d.description.getD "", false, now, now, caller⟩ :=
      (Except.ok.injEq .. ▸ ht).symm
    have hfind : findTask st2 t.id caller = some t := by
      unfold findTask
      rw [← hst2]
      simp only [List.find?_append]
      have h1 : st.tasks.find? (fun x => x.id == t.id && x.user_id == caller) = none := by
        rw [List.find?_eq_none]
        intro x hx
        simp only [Bool.and_eq_true, beq_iff_eq, not_and]
        intro hid
        rw [ht] at hid
        exact absurd hid (hfresh x hx)
      rw [h1]
      simp [ht]
    refine ⟨by simp only [getTask, hfind], ?_, ?_, ?_, by simp [ht]⟩ <;>
      intros <;> simp [ht, *]

/-- Witness for C7: creating "Buy milk" in an empty table and getting it
back by the returned id round-trips the title, description and flag. -/
theorem createTask_then_getTask_witness :
    (∀ x ∈ ([] : List Task), x.id ≠ 1)
    ∧ ∃ t st2, createTask ⟨[], [], 1, 1⟩ 7 3 (some ⟨some "Buy milk", some "2L"⟩) = (.ok t, st2)
      ∧ getTask st2 7 t.id = .ok t
      ∧ t.title = "Buy milk"
      ∧ t.description = "2L"
      ∧ t.completed = false := by
  refine ⟨by simp, ⟨1, "Buy milk", "2L", false, 3, 3, 7⟩,
    ⟨[], [⟨1, "Buy milk", "2L", false, 3, 3, 7⟩], 1, 2⟩, rfl, ?_⟩
  obtain ⟨hg, hti, hde, _, hco⟩ :=
    createTask_then_getTask ⟨[], [], 1, 1⟩ 7 3 ⟨some "Buy milk", some "2L"⟩
      ⟨1, "Buy milk", "2L", false, 3, 3, 7⟩
      ⟨[], [⟨1, "Buy milk", "2L", false, 3, 3, 7⟩], 1, 2⟩ (by simp) rfl
  exact ⟨hg, hti "Buy milk" rfl, hde "2L" rfl, hco⟩

/-- C3: register validates the three fields first (ValidationError when any
is missing/empty), then the username uniqueness check fires regardless of
the email value, then the email uniqueness check; only when all three
checks pass is a new User persisted, every failing branch leaving the
state unchanged. -/
theorem register_check_order (genHash : String → String) (st : AppState)
    (now : Nat) (body : Option RegisterBody) :
    (body = none →
      register genHash st now body
        = (.error ⟨400, "Username, email, and password are required"⟩, st))
  ∧ (∀ d, body = some d →
      (d.username.getD "" = "" ∨ d.email.getD "" = "" ∨ d.password.getD "" = "") →
      register genHash st now body
        = (.error ⟨400, "Username, email, and password are required"⟩, st))
  ∧ (∀ d, body = some d →
      d.username.getD "" ≠ "" → d.email.getD "" ≠ "" → d.password.getD "" ≠ "" →
      (∃ u ∈ st.users, u.username = d.username.getD "") →
      register genHash st now body = (.error ⟨400, "Username already exists"⟩, st))
  ∧ (∀ d, body = some d →
      d.username.getD "" ≠ "" → d.email.getD "" ≠ "" → d.password.getD "" ≠ "" →
      (∀ u ∈ st.users, u.username ≠ d.username.getD "") →
      (∃ u ∈ st.users, u.email = d.email.getD "") →
      register genHash st now body = (.error ⟨400, "Email already exists"⟩, st))
  ∧ (∀ d, body = some d →
      d.username.getD "" ≠ "" → d.email.getD "" ≠ "" → d.password.getD "" ≠ "" →
      (∀ u ∈ st.users, u.username ≠ d.username.getD "") →
      (∀ u ∈ st.users, u.email ≠ d.email.getD "") →
      ∃ r newUser, register genHash st now body
        = (.ok r, { st with users := st.users ++ [newUser], nextUserId := st.nextUserId + 1 })) := by
  refine ⟨fun hb => by rw [hb]; rfl,
    fun d hb hempty => ?_,
    fun d hb h1 h2 h3 hex => ?_,
    fun d hb h1 h2 h3 hnou hex => ?_,
    fun d hb h1 h2 h3 hnou hnoe => ?_⟩ <;> rw [hb]
  · have hcond : (blank d.username || blank d.email || blank d.password) = true := by
      rcases hempty with h | h | h <;> simp [blank, h]
    simp [register, hcond]
  · have hcond : (blank d.username || blank d.email || blank d.password) = false := by
      simp [blank, h1, h2, h3]
    have hf1 : (st.users.find? (fun u => u.username == d.username.getD "")).isSome = true := by
      rw [List.find?_isSome]
      obtain ⟨u, hu, hequ⟩ := hex
      exact ⟨u, hu, by simp [hequ]⟩
    simp [register, hcond, hf1]
  · have hcond : (blank d.username || blank d.email || blank d.password) = false := by
      simp [blank, h1, h2, h3]
    have hf1 : st.users.find? (fun u => u.username == d.username.getD "") = none :=
      List.find?_eq_none.mpr fun u hu => by simp [hnou u hu]
    have hf2 : (st.users.find? (fun u => u.email == d.email.getD "")).isSome = true := by
      rw [List.find?_isSome]
      obtain ⟨u, hu, hequ⟩ := hex
      exact ⟨u, hu, by simp [hequ]⟩
    simp [register, hcond, hf1, hf2]
  · have hcond : (blank d.username || blank d.email || blank d.password) = false := by
      simp [blank, h1, h2, h3]
    have hf1 : st.users.find? (fun u => u.username == d.username.getD "") = none :=
      List.find?_eq_none.mpr fun u hu => by simp [hnou u hu]
    have hf2 : st.users.find? (fun u => u.email == d.email.getD "") = none :=
      List.find?_eq_none.mpr fun u hu => by simp [hnoe u hu]
    refine ⟨⟨"User created successfully", create_access_token st.nextUserId,
        ⟨st.nextUserId, d.username.getD "", d.email.getD "", now⟩⟩,
      ⟨st.nextUserId, d.username.getD "", d.email.getD "",
        genHash (d.password.getD ""), now⟩, ?_⟩
    simp [register, hcond, hf1, hf2, create_access_token]

/-- Witness for C3: with user alice present, re-registering the username
alice conflicts on the username even though the email is fresh. -/
theorem register_check_order_witness :
    register (fun s => s) ⟨[⟨1, "alice", "a@x", "pw1", 0⟩], [], 2, 1⟩ 5
        (some ⟨some "alice", some "b@x", some "pw2"⟩)
      = (.error ⟨400, "Username already exists"⟩,
         ⟨[⟨1, "alice", "a@x", "pw1", 0⟩], [], 2, 1⟩) :=
  (register_check_order (fun s => s) ⟨[⟨1, "alice", "a@x", "pw1", 0⟩], [], 2, 1⟩ 5
      (some ⟨some "alice", some "b@x", some "pw2"⟩)).2.2.1
    ⟨some "alice", some "b@x", some "pw2"⟩ rfl (by decide) (by decide) (by decide)
    ⟨⟨1, "alice", "a@x", "pw1", 0⟩, by decide, by decide⟩

/-- C2: with both login fields present (and nonempty, so the presence
check passes), login succeeds exactly when the username lookup finds a
user whose stored hash verifies the password, and the issued token embeds
that id of the user; both failure modes, unknown username and failed
verification, return the one identical generic 401 error value. -/
theorem login_uniform_invalid_credentials (checkHash : String → String → Bool)
    (st : AppState) (u p : String) (hu : u ≠ "") (hp : p ≠ "") :
    (∀ usr, st.users.find? (fun x => x.username == u) = some usr →
        usr ∈ st.users ∧ usr.username = u
      ∧ (checkHash usr.password_hash p = true →
          login checkHash st (some ⟨some u, some p⟩)
            = .ok ⟨"Login successful", create_access_token usr.id,
                   ⟨usr.id, usr.username, usr.email, usr.created_at⟩⟩
          ∧ get_jwt_identity (create_access_token usr.id) = usr.id)
      ∧ (checkHash usr.password_hash p = false →
          login checkHash st (some ⟨some u, some p⟩)
            = .error ⟨401, "Invalid credentials"⟩))
  ∧ (st.users.find? (fun x => x.username == u) = none →
      login checkHash st (some ⟨some u, some p⟩)
        = .error ⟨401, "Invalid credentials"⟩)
  ∧ (st.users.find? (fun x => x.username == u) = none
      ↔ ∀ x ∈ st.users, x.username ≠ u) := by
  have hcond : (blank (some u) || blank (some p)) = false := by
    simp [blank, hu, hp]
  refine ⟨fun usr hf => ⟨List.mem_of_find?_eq_some hf,
      by simpa using List.find?_some hf, fun hc => ?_, fun hc => ?_⟩,
    fun hf => ?_, ?_⟩
  · exact ⟨by simp [login, hcond, hf, hc], rfl⟩
  · simp [login, hcond, hf, hc]
  · simp [login, hcond, hf]
  · rw [List.find?_eq_none]
    simp

/-- Witness for C2: one user bob whose hash check is string equality with
a marker; the wrong password and an unknown username both yield the same
401 error, and the right password logs in with token identity 1. -/
theorem login_uniform_invalid_credentials_witness :
    login (fun h c => h == c ++ "#h") ⟨[⟨1, "bob", "b@x", "pw#h", 0⟩], [], 2, 1⟩
        (some ⟨some "bob", some "pw"⟩)
      = .ok ⟨"Login successful", create_access_token 1, ⟨1, "bob", "b@x", 0⟩⟩
    ∧ login (fun h c => h == c ++ "#h") ⟨[⟨1, "bob", "b@x", "pw#h", 0⟩], [], 2, 1⟩
        (some ⟨some "bob", some "wrong"⟩)
      = .error ⟨401, "Invalid credentials"⟩
    ∧ login (fun h c => h == c ++ "#h") ⟨[⟨1, "bob", "b@x", "pw#h", 0⟩], [], 2, 1⟩
        (some ⟨some "carol", some "pw"⟩)
      = .error ⟨401, "Invalid credentials"⟩ := by
  refine ⟨?_, ?_, ?_⟩
  · exact ((login_uniform_invalid_credentials (fun h c => h == c ++ "#h")
      ⟨[⟨1, "bob", "b@x", "pw#h", 0⟩], [], 2, 1⟩ "bob" "pw" (by decide) (by decide)).1
      ⟨1, "bob", "b@x", "pw#h", 0⟩ (by decide)).2.2.1 (by decide) |>.1
  · exact ((login_uniform_invalid_credentials (fun h c => h == c ++ "#h")
      ⟨[⟨1, "bob", "b@x", "pw#h", 0⟩], [], 2, 1⟩ "bob" "wrong" (by decide) (by decide)).1
      ⟨1, "bob", "b@x", "pw#h", 0⟩ (by decide)).2.2.2 (by decide)
  · exact (login_uniform_invalid_credentials (fun h c => h == c ++ "#h")
      ⟨[⟨1, "bob", "b@x", "pw#h", 0⟩], [], 2, 1⟩ "carol" "pw" (by decide) (by decide)).2.1
      (by decide)

/-- C6: list returns exactly the rows of the task table owned by the
caller (a permutation of the ownership filter, membership characterised by
ownership), sorted by creation timestamp descending, with the count equal
to the length; a caller owning no tasks gets the empty sequence with
count 0 and never an error. -/
theorem listTasks_owned_sorted (st : AppState) (caller : Nat) :
    (listTasks st caller).2 = (listTasks st caller).1.length
  ∧ List.Perm (listTasks st caller).1 (st.tasks.filter (fun t => t.user_id == caller))
  ∧ List.Sorted createdDesc (listTasks st caller).1
  ∧ (∀ t, t ∈ (listTasks st caller).1 ↔ t ∈ st.tasks ∧ t.user_id = caller)
  ∧ ((∀ t ∈ st.tasks, t.user_id ≠ caller) → listTasks st caller = ([], 0)) := by
  refine ⟨rfl, List.perm_insertionSort _ _, List.sorted_insertionSort _ _,
    fun t => ?_, fun hno => ?_⟩
  · simp only [listTasks]
    rw [(List.perm_insertionSort createdDesc _).mem_iff, List.mem_filter]
    simp
  · have hnil : st.tasks.filter (fun t => t.user_id == caller) = [] :=
      List.filter_eq_nil_iff.mpr fun t ht => by simp [hno t ht]
    simp [listTasks, hnil]

/-- Witness for C6: a caller owning nothing gets the empty list and
count 0 from a nonempty table. -/
theorem listTasks_owned_sorted_witness :
    listTasks ⟨[], [⟨1, "t", "", false, 0, 0, 7⟩], 1, 2⟩ 9 = ([], 0) :=
  (listTasks_owned_sorted ⟨[], [⟨1, "t", "", false, 0, 0, 7⟩], 1, 2⟩ 9).2.2.2.2
    (by decide)

/-- C9: a successful register persists exactly one new User whose stored
password field is the derived hash of the supplied password, and the
returned public summary is built from exactly id, username, email and
creation timestamp (a UserSummary has no other fields) — it is unchanged
under replacing the password by any other nonempty one, so it carries
neither the plaintext password nor anything derived from it. -/
theorem register_persists_hash_only (genHash : String → String)
    (st : AppState) (now : Nat) (d : RegisterBody) (r : AuthResponse)
    (st2 : AppState)
    (h : register genHash st now (some d) = (.ok r, st2)) :
    ∃ newUser : User,
      st2.users = st.users ++ [newUser]
      ∧ newUser.password_hash = genHash (d.password.getD "")
      ∧ newUser.username = d.username.getD ""
      ∧ newUser.email = d.email.getD ""
      ∧ r.user = ⟨newUser.id, newUser.username, newUser.email, newUser.created_at⟩
      ∧ (∀ p2, p2 ≠ "" →
          ∃ st3, register genHash st now (some { d with password := some p2 })
              = (.ok ⟨r.message, r.access_token, r.user⟩, st3))
      ∧ (∀ s1 s2 : UserSummary, s1.id = s2.id → s1.username = s2.username →
          s1.email = s2.email → s1.created_at = s2.created_at → s1 = s2) := by
  simp only [register] at h
  split at h
  case isTrue => exact absurd (congrArg Prod.fst h) (by simp)
  case isFalse hc1 =>
    split at h
    case isTrue => exact absurd (congrArg Prod.fst h) (by simp)
    case isFalse hc2 =>
      split at h
      case isTrue => exact absurd (congrArg Prod.fst h) (by simp)
      case isFalse hc3 =>
        simp only [Bool.not_eq_true, Bool.or_eq_false_iff] at hc1
        obtain ⟨⟨hbu, hbe⟩, _⟩ := hc1
        obtain ⟨hr, hst⟩ := Prod.mk.injEq .. ▸ h
        replace hr : (⟨"User created successfully",
            create_access_token st.nextUserId,
            ⟨st.nextUserId, d.username.getD "", d.email.getD "", now⟩⟩ : AuthResponse) = r :=
          Except.ok.injEq .. ▸ hr
        subst hr
        subst hst
        refine ⟨⟨st.nextUserId, d.username.getD "", d.email.getD "",
          genHash (d.password.getD ""), now⟩, rfl, rfl, rfl, rfl, rfl,
          fun p2 hp2 => ?_, fun s1 s2 e1 e2 e3 e4 => ?_⟩
        · have hf1 : st.users.find? (fun u => u.username == d.username.getD "") = none :=
            Option.not_isSome_iff_eq_none.mp hc2
          have hf2 : st.users.find? (fun u => u.email == d.email.getD "") = none :=
            Option.not_isSome_iff_eq_none.mp hc3
          have hbp2 : blank (some p2) = false := by simp [blank, hp2]
          refine ⟨{ st with users := st.users ++ [⟨st.nextUserId, d.username.getD "",
            d.email.getD "", genHash p2, now⟩], nextUserId := st.nextUserId + 1 }, ?_⟩
          simp [register, hbu, hbe, hbp2, hf1, hf2]
        · cases s1; cases s2; simp_all

/-- Witness for C9: registering carol persists the derived hash of pw9 and
returns the four-field public summary. -/
theorem register_persists_hash_only_witness :
    ∃ newUser : User,
      ([⟨1, "carol", "c@x", "pw9#h", 5⟩] : List User) = [] ++ [newUser]
      ∧ newUser.password_hash = (fun s => s ++ "#h") ((some "pw9").getD "")
      ∧ newUser.username = "carol"
      ∧ newUser.email = "c@x"
      ∧ (⟨1, "carol", "c@x", 5⟩ : UserSummary)
          = ⟨newUser.id, newUser.username, newUser.email, newUser.created_at⟩ := by
  obtain ⟨nu, h1, h2, h3, h4, h5, _, _⟩ :=
    register_persists_hash_only (fun s => s ++ "#h") ⟨[], [], 1, 1⟩ 5
      ⟨some "carol", some "c@x", some "pw9"⟩
      ⟨"User created successfully", create_access_token 1, ⟨1, "carol", "c@x", 5⟩⟩
      ⟨[⟨1, "carol", "c@x", "pw9#h", 5⟩], [], 2, 1⟩ rfl
  exact ⟨nu, h1, h2, h3, h4, h5⟩

end TaskManager
